import Mathlib

/-!
Verification of the session/workflow orchestration layer of the medical
prescription analysis application (`src/app.py`).

The application is a single-file Streamlit program.  External collaborators
(OCR engine, MongoDB store, Mistral chat-completion HTTP endpoint) are
modelled as explicit inputs: the raw OCR output (or an OCR exception) is an
`Option String`, the store is a `List Prescription` (or `none` when the
connection failed), and the outcome of one HTTP completion call is a
`NetOutcome`.  All session state (`st.session_state`) is an explicit
`SessionState` record, and the user actions that mutate it are an `Event`
type interpreted by `apply_event`.
-/

namespace MedApp

/-- Chat message roles, as used in `st.session_state.chat_history` entries. -/
inductive Role where
  | user
  | assistant
deriving DecidableEq, Repr

/-- One entry of `chat_history`: a dict `{"role": ..., "content": ...}`. -/
structure ChatMessage where
  role : Role
  content : String
deriving DecidableEq, Repr

/-- The three navigation pages of `main` (sidebar radio options
"Extract Text", "Chat with Prescription Data", "Direct Chat"). -/
inductive Page where
  | ExtractText
  | ChatWithData
  | DirectChat
deriving DecidableEq, Repr

/-- One stored document of the `extracted_texts` collection:
`{"extracted_text": ..., "upload_date": ...}` (`save_to_database`).
The timestamp is modelled as a natural number. -/
structure Prescription where
  extracted_text : String
  upload_date : Nat
deriving DecidableEq, Repr

/-- Python truthiness of an optional string (`if not MISTRAL_API_KEY`,
`if prescription_data`, `if extracted_text`, line 261 of `app.py`):
`None` and the empty string are falsy, every other string is truthy. -/
def truthy : Option String → Bool
  | none => false
  | some s => s != ""

/-- Python `str.strip()`: remove leading and trailing whitespace.
Modelled directly on the character list so that it evaluates by kernel
reduction. -/
def str_strip (s : String) : String :=
  ⟨((s.data.dropWhile Char.isWhitespace).reverse.dropWhile Char.isWhitespace).reverse⟩

/-- Python `sep.join(xs)`: concatenation of `xs` with `sep` between
consecutive elements. -/
def joinSep (sep : String) : List String → String
  | [] => ""
  | [x] => x
  | x :: y :: xs => x ++ sep ++ joinSep sep (y :: xs)

/-! ## The Mistral chat completion call (`query_mistral_api`, lines 74-117) -/

/-- Outcome of the single `requests.post` call inside `query_mistral_api`,
as seen by the surrounding `try`/`except`:
* `requestError`: `requests.post` itself raised (network error);
* `httpError`: `response.raise_for_status()` raised (non-success HTTP status);
* `malformed`: the response JSON has no `choices[0].message.content`
  (the indexing raised `KeyError`/`IndexError`);
* `success`: a completion string was present.
In each failing case the carried string is `str(e)` for the raised
exception `e`. -/
inductive NetOutcome where
  | requestError (msg : String)
  | httpError (msg : String)
  | malformed (msg : String)
  | success (content : String)
deriving DecidableEq, Repr

/-- The literal returned by `query_mistral_api` when `MISTRAL_API_KEY` is
absent (line 78). -/
def missing_key_error : String :=
  "Error: Mistral API key not found. Please set it in the .env file."

/-- The system message built by `query_mistral_api` (lines 84-88). -/
def system_message (prescription_data : Option String) : String :=
  if truthy prescription_data then
    "You are a medical assistant that helps analyze prescription data. Answer questions based on the following prescription data:" ++
      "\nPrescription data: " ++ prescription_data.getD ""
  else
    "You are a helpful medical assistant that can answer general medical questions. Note that you are not a replacement for professional medical advice."

/-- Result of `query_mistral_api`: the returned string, plus the request
actually sent over the network — `none` when `requests.post` was never
reached, otherwise the pair (system message, user message) of the JSON
`messages` array (lines 99-107). -/
structure QueryResult where
  response : String
  request_sent : Option (String × String)
deriving DecidableEq, Repr

/-- Whether the network request was attempted at all. -/
def QueryResult.network_called (r : QueryResult) : Bool :=
  r.request_sent.isSome

/-- `query_mistral_api(prompt, prescription_data)` (lines 74-117).
With a falsy `MISTRAL_API_KEY` it returns the literal error before any
network activity; otherwise the body runs under `try`/`except`, so every
failure of the call is converted to the literal
`"Error querying Mistral API: " + str(e)` and the function always returns
a string (it never raises). -/
def query_mistral_api (apiKey : Option String) (prompt : String)
    (prescription_data : Option String) (net : NetOutcome) : QueryResult :=
  if truthy apiKey = false then
    { response := missing_key_error, request_sent := none }
  else
    let sent := some (system_message prescription_data, prompt)
    match net with
    | .success content => { response := content, request_sent := sent }
    | .requestError msg =>
        { response := "Error querying Mistral API: " ++ msg, request_sent := sent }
    | .httpError msg =>
        { response := "Error querying Mistral API: " ++ msg, request_sent := sent }
    | .malformed msg =>
        { response := "Error querying Mistral API: " ++ msg, request_sent := sent }

/-- The failure message carried by a failing `NetOutcome` (`none` on
success). -/
def failure_msg : NetOutcome → Option String
  | .requestError msg => some msg
  | .httpError msg => some msg
  | .malformed msg => some msg
  | .success _ => none

/-! ## The chat interface (`display_chat_interface`, lines 119-162) -/

/-- One user-submitted query together with the network outcome of the
completion call made for it.  A turn only runs when `st.chat_input`
returned a truthy string (`if user_query:` at line 140). -/
structure Turn where
  query : String
  net : NetOutcome
deriving DecidableEq, Repr

/-- One completed chat turn of `display_chat_interface` (lines 140-157):
append the user message, call `query_mistral_api`, append the assistant
message (the completion or the literal error string). -/
def chatTurn (apiKey : Option String) (prescription_data : Option String)
    (history : List ChatMessage) (t : Turn) : List ChatMessage :=
  (history ++ [{ role := .user, content := t.query }]) ++
    [{ role := .assistant,
       content := (query_mistral_api apiKey t.query prescription_data t.net).response }]

/-- Running a sequence of completed chat turns from a given history. -/
def runTurns (apiKey : Option String) (prescription_data : Option String)
    (history : List ChatMessage) (ts : List Turn) : List ChatMessage :=
  ts.foldl (chatTurn apiKey prescription_data) history

/-- The "Clear Chat History" button handler (line 161):
`st.session_state.chat_history = []`. -/
def clear_chat (_history : List ChatMessage) : List ChatMessage := []

/-- Decides that a message list is a strict alternation of pairs: a user
message followed by an assistant message, repeated.  In particular such a
list has even length. -/
def alternatesUserAssistant : List ChatMessage → Bool
  | [] => true
  | [_] => false
  | u :: a :: rest =>
      decide (u.role = Role.user) && decide (a.role = Role.assistant) &&
        alternatesUserAssistant rest

/-! ## OCR and the Extract Text page (lines 43-50 and 192-255) -/

/-- `extract_text_from_image` (lines 43-50).  The argument is the raw
result of `pytesseract.image_to_string`: `none` when the OCR call raised
(the `except` branch reports the error and returns `None`), `some text`
otherwise.  On a truthy raw text the function returns `text.strip()`; on a
raw empty string it returns the literal `"No text detected"`. -/
def extract_text_from_image (ocr_result : Option String) : Option String :=
  match ocr_result with
  | none => none
  | some text => some (if text != "" then str_strip text else "No text detected")

/-- Which follow-on widgets the Extract Text page renders after the
"Extract Text" button ran (lines 205-255):  everything is guarded by
`if extracted_text:` (line 205), so a `None` or empty extraction result
renders nothing.  With a truthy result the text is shown; with a database
connection the page offers "Submit to Database", "View Stored
Prescriptions" and "Chat with this Prescription"; without a connection it
offers only "Chat with this Prescription". -/
structure ExtractActions where
  shows_extracted_text : Bool
  offers_submit_to_db : Bool
  offers_view_stored : Bool
  offers_chat_transition : Bool
deriving DecidableEq, Repr

/-- The Extract Text page follow-on actions for a given connection state
and extraction result (lines 205-255). -/
def extract_page_actions (db_connected : Bool) (extracted_text : Option String) :
    ExtractActions :=
  match extracted_text with
  | none =>
      { shows_extracted_text := false, offers_submit_to_db := false,
        offers_view_stored := false, offers_chat_transition := false }
  | some t =>
      if t != "" then
        { shows_extracted_text := true, offers_submit_to_db := db_connected,
          offers_view_stored := db_connected, offers_chat_transition := true }
      else
        { shows_extracted_text := false, offers_submit_to_db := false,
          offers_view_stored := false, offers_chat_transition := false }

/-- `save_to_database` (lines 52-64) on the successful path: inserts the
document `{"extracted_text": ..., "upload_date": ...}` into the
collection.  Any string, the empty string included, is accepted.  (On an
insert exception the collection is unchanged and `None` is returned; no
claim depends on the failing path.) -/
def save_to_database (extracted_text : String) (upload_date : Nat)
    (store : List Prescription) : List Prescription :=
  store ++ [{ extracted_text := extracted_text, upload_date := upload_date }]

/-! ## The prescription store (`fetch_stored_prescriptions`, lines 66-72) -/

/-- Insert a prescription into a list kept in `upload_date`-descending
order (later-dated records first). -/
def insert_desc (p : Prescription) : List Prescription → List Prescription
  | [] => [p]
  | q :: qs =>
      if q.upload_date ≤ p.upload_date then p :: q :: qs
      else q :: insert_desc p qs

/-- Sort a list of prescriptions by `upload_date` descending. -/
def sort_by_date_desc : List Prescription → List Prescription
  | [] => []
  | p :: ps => insert_desc p (sort_by_date_desc ps)

/-- `fetch_stored_prescriptions` (lines 66-72):
`list(collection.find().sort("upload_date", -1))`, i.e. all stored
documents ordered by `upload_date` descending.  `fetch_ok = false` models
the `except` branch (the query raised): an error is reported and `[]` is
returned. -/
def fetch_stored_prescriptions (fetch_ok : Bool) (store : List Prescription) :
    List Prescription :=
  if fetch_ok then sort_by_date_desc store else []

/-! ## The Chat with Prescription Data page (lines 257-313) -/

/-- The labelled texts of the "All Prescriptions" join (lines 285-286):
`f"Prescription {idx + 1}:\n{prescription['extracted_text']}"` for each
record, with `idx` counting from `idx0`. -/
def labeled_texts (idx0 : Nat) : List Prescription → List String
  | [] => []
  | p :: ps =>
      ("Prescription " ++ toString (idx0 + 1) ++ ":\n" ++ p.extracted_text) ::
        labeled_texts (idx0 + 1) ps

/-- The `prescription_data` string for the "All Prescriptions" selection
(lines 284-286): `"\n\n".join(...)` over the labelled texts. -/
def all_prescriptions_data (prescriptions : List Prescription) : String :=
  joinSep "\n\n" (labeled_texts 0 prescriptions)

/-- The per-record selector labels (lines 273-274):
`f"Prescription {idx + 1} - {prescription['upload_date']}"`, with `idx`
counting from `idx0`. -/
def date_labels (idx0 : Nat) : List Prescription → List String
  | [] => []
  | p :: ps =>
      ("Prescription " ++ toString (idx0 + 1) ++ " - " ++ toString p.upload_date) ::
        date_labels (idx0 + 1) ps

/-- The selectbox option list (lines 272-279): the per-record labels, then
`insert(0, "All Prescriptions")`, then, when
`has_current_prescription` is truthy, `insert(0, "Current Extracted
Prescription")`. -/
def prescription_options (has_current_prescription : Bool)
    (prescriptions : List Prescription) : List String :=
  let options := "All Prescriptions" :: date_labels 0 prescriptions
  if has_current_prescription then "Current Extracted Prescription" :: options
  else options

/-- What the Chat with Prescription Data page renders after resolving
`prescription_data`:
* `chatPanel d`: the chat interface is shown with `prescription_data = d`;
* `noDataGuidance msg`: the guidance message is shown and the page body
  returns early — no selector below, no chat panel, no chat turn possible;
* `crash`: an uncaught exception in the index-parsing branch (unreachable
  when the selected option is one of the rendered options). -/
inductive PageRender where
  | chatPanel (prescription_data : String)
  | noDataGuidance (msg : String)
  | crash
deriving DecidableEq, Repr

/-- Guidance shown when the store is connected but has no records and no
current prescription exists (line 298). -/
def no_db_records_msg : String :=
  "No prescriptions found in database. Please extract text first or use Direct Chat."

/-- Guidance shown when the store is not connected and no current
prescription exists (line 305). -/
def no_data_msg : String :=
  "No prescription data available. Please extract text first or use Direct Chat."

/-- The index extracted from an individual selector label (line 291):
`int(selected_option.split(" ")[1])`. -/
def parse_option_ordinal (selected : String) : Option Nat :=
  ((selected.splitOn " ").get? 1).bind String.toNat?

/-- The selector shown on the Chat with Prescription Data page: `some
options` when the store is connected and holds at least one fetched
record (lines 267-281), `none` when no selectbox is rendered. -/
def chat_with_data_selector (fetch_ok : Bool) (collection : Option (List Prescription))
    (current_prescription : Option String) : Option (List String) :=
  match collection with
  | some store =>
      let prescriptions := fetch_stored_prescriptions fetch_ok store
      if prescriptions.isEmpty then none
      else some (prescription_options (truthy current_prescription) prescriptions)
  | none => none

/-- The Chat with Prescription Data page body (lines 257-313).
`collection` is `none` when `get_db_connection` failed;
`current_prescription` is `st.session_state.current_prescription`;
`selected` is the selectbox choice (only consulted when the selectbox is
rendered).  The individual-record branch re-parses the ordinal out of the
label string and indexes the fetched list; a selection outside the
rendered options (impossible through the UI, which only yields rendered
options whose ordinals start at 1) is modelled as `crash`. -/
def chat_with_data_page (fetch_ok : Bool) (collection : Option (List Prescription))
    (current_prescription : Option String) (selected : String) : PageRender :=
  let has_current := truthy current_prescription
  match collection with
  | some store =>
      let prescriptions := fetch_stored_prescriptions fetch_ok store
      if prescriptions.isEmpty then
        if has_current then .chatPanel (current_prescription.getD "")
        else .noDataGuidance no_db_records_msg
      else
        if selected = "All Prescriptions" then
          .chatPanel (all_prescriptions_data prescriptions)
        else if selected = "Current Extracted Prescription" then
          .chatPanel (current_prescription.getD "")
        else
          match parse_option_ordinal selected with
          | some n =>
              match prescriptions.get? (n - 1) with
              | some p => .chatPanel p.extracted_text
              | none => .crash
          | none => .crash
  | none =>
      if has_current then .chatPanel (current_prescription.getD "")
      else .noDataGuidance no_data_msg

/-! ## Session state and its events (`st.session_state` writes) -/

/-- The session state of the application: `st.session_state.page`,
`st.session_state.chat_history`, `st.session_state.current_prescription`.
Initial values: page `"Extract Text"` (line 173), empty history (line
129), `current_prescription = None` (line 325). -/
structure SessionState where
  page : Page
  chat_history : List ChatMessage
  current_prescription : Option String
deriving DecidableEq, Repr

/-- The initial session state. -/
def initialState : SessionState :=
  { page := .ExtractText, chat_history := [], current_prescription := none }

/-- The user actions that mutate session state, one constructor per write
site in `app.py`:
* `setPage`: the sidebar radio changed (lines 177-179);
* `chatWithThisPrescription t`: the "Chat with this Prescription" button
  (lines 238-253), enabled only for a truthy extraction result `t`;
* `submitToDatabase ok`: the "Submit to Database" button (lines 214-220) —
  a store write, session state untouched whether it succeeds or fails;
* `viewStoredPrescriptions`: the "View Stored Prescriptions" button
  (lines 222-235) — a store read, session state untouched;
* `userChatTurn`: one completed chat turn (lines 140-157);
* `clearChatHistory`: the "Clear Chat History" button (lines 159-162). -/
inductive Event where
  | setPage (p : Page)
  | chatWithThisPrescription (text : String)
  | submitToDatabase (ok : Bool)
  | viewStoredPrescriptions
  | userChatTurn (apiKey : Option String) (prescription_data : Option String)
      (query : String) (net : NetOutcome)
  | clearChatHistory
deriving DecidableEq, Repr

/-- Interpretation of one event on the session state, following the
assignments in `app.py` site by site. -/
def apply_event (s : SessionState) (e : Event) : SessionState :=
  match e with
  | .setPage p => { s with page := p }
  | .chatWithThisPrescription t =>
      { s with current_prescription := some t, page := .ChatWithData }
  | .submitToDatabase _ => s
  | .viewStoredPrescriptions => s
  | .userChatTurn apiKey prescription_data q net =>
      { s with chat_history :=
          chatTurn apiKey prescription_data s.chat_history { query := q, net := net } }
  | .clearChatHistory => { s with chat_history := clear_chat s.chat_history }

/-! ## Concrete sample data used by witnesses -/

/-- A sample record, the newer of the two. -/
def rx_newest : Prescription :=
  { extracted_text := "Amoxicillin 500mg twice daily", upload_date := 2 }

/-- A sample record, the older of the two. -/
def rx_oldest : Prescription :=
  { extracted_text := "Paracetamol 650mg once daily", upload_date := 1 }

/-- A sample session state with one user message in the history. -/
def demo_state : SessionState :=
  { page := .DirectChat,
    chat_history := [{ role := .user, content := "What is the dosage?" }],
    current_prescription := none }

/-! ## Helper lemmas -/

theorem chatTurn_eq_append (apiKey prescription_data : Option String)
    (h : List ChatMessage) (t : Turn) :
    chatTurn apiKey prescription_data h t =
      h ++ [{ role := .user, content := t.query },
            { role := .assistant,
              content := (query_mistral_api apiKey t.query prescription_data t.net).response }] := by
  simp [chatTurn]

theorem runTurns_append_left (apiKey prescription_data : Option String)
    (ts : List Turn) :
    ∀ h : List ChatMessage,
      runTurns apiKey prescription_data h ts = h ++ runTurns apiKey prescription_data [] ts := by
  induction ts with
  | nil => intro h; simp [runTurns]
  | cons t ts ih =>
      intro h
      show runTurns apiKey prescription_data (chatTurn apiKey prescription_data h t) ts = _
      rw [ih (chatTurn apiKey prescription_data h t), chatTurn_eq_append]
      conv_rhs =>
        rw [show runTurns apiKey prescription_data [] (t :: ts) =
              runTurns apiKey prescription_data (chatTurn apiKey prescription_data [] t) ts
            from rfl,
          ih (chatTurn apiKey prescription_data [] t), chatTurn_eq_append]
      simp

theorem runTurns_cons_eq (apiKey prescription_data : Option String)
    (t : Turn) (ts : List Turn) :
    runTurns apiKey prescription_data [] (t :: ts) =
      { role := .user, content := t.query } ::
        { role := .assistant,
          content := (query_mistral_api apiKey t.query prescription_data t.net).response } ::
          runTurns apiKey prescription_data [] ts := by
  rw [show runTurns apiKey prescription_data [] (t :: ts) =
        runTurns apiKey prescription_data (chatTurn apiKey prescription_data [] t) ts
      from rfl,
    runTurns_append_left, chatTurn_eq_append]
  simp

theorem prescription_label_ne_current (x : String) :
    "Prescription " ++ x ≠ "Current Extracted Prescription" := by
  intro h
  have h2 := congrArg String.data h
  rw [String.data_append,
    show "Prescription ".data = 'P' :: "rescription ".data from rfl,
    List.cons_append,
    show "Current Extracted Prescription".data =
      'C' :: "urrent Extracted Prescription".data from rfl] at h2
  injection h2 with h3 _
  exact absurd h3 (by decide)

theorem mem_date_labels {s : String} :
    ∀ {idx0 : Nat} {ps : List Prescription}, s ∈ date_labels idx0 ps →
      ∃ x, s = "Prescription " ++ x := by
  intro idx0 ps
  induction ps generalizing idx0 with
  | nil => intro h; simp [date_labels] at h
  | cons p ps ih =>
      intro h
      rcases List.mem_cons.mp h with h1 | h1
      · exact ⟨toString (idx0 + 1) ++ (" - " ++ toString p.upload_date),
          by rw [h1]; simp [String.append_assoc]⟩
      · exact ih h1

theorem current_not_mem_options (ps : List Prescription) :
    "Current Extracted Prescription" ∉ prescription_options false ps := by
  intro h
  simp only [prescription_options, if_neg Bool.false_ne_true] at h
  rcases List.mem_cons.mp h with h1 | h1
  · exact absurd h1.symm (by decide)
  · rcases mem_date_labels h1 with ⟨x, hx⟩
    exact prescription_label_ne_current x hx.symm

theorem mem_insert_desc {x p : Prescription} :
    ∀ {l : List Prescription}, x ∈ insert_desc p l ↔ x = p ∨ x ∈ l := by
  intro l
  induction l with
  | nil => simp [insert_desc]
  | cons q qs ih =>
      simp only [insert_desc]
      split
      · simp [List.mem_cons]
      · simp [List.mem_cons, ih]
        tauto

theorem pairwise_insert_desc {p : Prescription} :
    ∀ {l : List Prescription},
      List.Pairwise (fun a b => b.upload_date ≤ a.upload_date) l →
      List.Pairwise (fun a b => b.upload_date ≤ a.upload_date) (insert_desc p l) := by
  intro l
  induction l with
  | nil => intro _; simp [insert_desc]
  | cons q qs ih =>
      intro h
      rcases List.pairwise_cons.mp h with ⟨hq, hqs⟩
      simp only [insert_desc]
      split
      · refine List.pairwise_cons.mpr ⟨?_, h⟩
        intro x hx
        rcases List.mem_cons.mp hx with h1 | h1
        · subst h1; assumption
        · exact le_trans (hq x h1) (by assumption)
      · refine List.pairwise_cons.mpr ⟨?_, ih hqs⟩
        intro x hx
        rcases mem_insert_desc.mp hx with h1 | h1
        · subst h1; exact le_of_not_le (by assumption)
        · exact hq x h1

theorem pairwise_sort_by_date_desc :
    ∀ l : List Prescription,
      List.Pairwise (fun a b => b.upload_date ≤ a.upload_date) (sort_by_date_desc l) := by
  intro l
  induction l with
  | nil => simp [sort_by_date_desc]
  | cons p ps ih => exact pairwise_insert_desc ih

theorem pairwise_fetch (fetch_ok : Bool) (store : List Prescription) :
    List.Pairwise (fun a b => b.upload_date ≤ a.upload_date)
      (fetch_stored_prescriptions fetch_ok store) := by
  unfold fetch_stored_prescriptions
  split
  · exact pairwise_sort_by_date_desc store
  · simp

theorem truthy_eq_isSome_of_inv {cur : Option String}
    (hinv : cur = none ∨ ∃ t, t ≠ "" ∧ cur = some t) :
    truthy cur = cur.isSome := by
  rcases hinv with h | ⟨t, ht, h⟩
  · subst h; rfl
  · subst h; simp [truthy, ht]

/-! ## Claim theorems -/

/-- C1: for every session and every number N of completed chat turns, on
either chat page (any `prescription_data`) and for any credential and any
sequence of completion-call outcomes, the chat history has length exactly
2N and strictly alternates a user message followed by an assistant message
per turn. -/
theorem chat_history_two_per_turn (apiKey prescription_data : Option String)
    (ts : List Turn) :
    (runTurns apiKey prescription_data [] ts).length = 2 * ts.length ∧
    alternatesUserAssistant (runTurns apiKey prescription_data [] ts) = true := by
  induction ts with
  | nil => exact ⟨rfl, rfl⟩
  | cons t ts ih =>
      rw [runTurns_cons_eq]
      refine ⟨?_, ?_⟩
      · simp only [List.length_cons, ih.1, List.length_cons]
        omega
      · simp [alternatesUserAssistant, ih.2]

/-- C3: for every chat turn with an absent (falsy) chat-service credential,
`query_mistral_api` returns exactly the literal missing-key error string,
no network request is ever built or sent, and the turn still completes,
appending the user message and the assistant message (carrying that
literal) to the history. -/
theorem missing_credential_turn (apiKey prescription_data : Option String)
    (q : String) (net : NetOutcome) (h : List ChatMessage)
    (hk : truthy apiKey = false) :
    (query_mistral_api apiKey q prescription_data net).response = missing_key_error ∧
    (query_mistral_api apiKey q prescription_data net).request_sent = none ∧
    (query_mistral_api apiKey q prescription_data net).network_called = false ∧
    chatTurn apiKey prescription_data h { query := q, net := net } =
      h ++ [{ role := .user, content := q },
            { role := .assistant, content := missing_key_error }] ∧
    (chatTurn apiKey prescription_data h { query := q, net := net }).length =
      h.length + 2 := by
  refine ⟨?_, ?_, ?_, ?_, ?_⟩ <;>
    simp [query_mistral_api, hk, QueryResult.network_called, chatTurn]

/-- C3 witness: the theorem applied with no credential at a concrete
query. -/
theorem missing_credential_turn_witness :
    (query_mistral_api none "What is the dosage?" none (.success "ok")).response =
      missing_key_error ∧
    (query_mistral_api none "What is the dosage?" none (.success "ok")).network_called =
      false :=
  ⟨(missing_credential_turn none none "What is the dosage?" (.success "ok") [] rfl).1,
   (missing_credential_turn none none "What is the dosage?" (.success "ok") [] rfl).2.2.1⟩

/-- C4: with a present credential, every failure of the completion call
(network error, non-success HTTP status, malformed response without
`choices[0].message.content`) yields as the returned completion text the
literal `"Error querying Mistral API: "` followed by the failure
description — `query_mistral_api` is total, so no exception propagates —
and that literal becomes the assistant message of the turn. -/
theorem chat_failure_replaced_by_literal (apiKey prescription_data : Option String)
    (q m : String) (net : NetOutcome) (h : List ChatMessage)
    (hk : truthy apiKey = true) (hf : failure_msg net = some m) :
    (query_mistral_api apiKey q prescription_data net).response =
      "Error querying Mistral API: " ++ m ∧
    chatTurn apiKey prescription_data h { query := q, net := net } =
      h ++ [{ role := .user, content := q },
            { role := .assistant, content := "Error querying Mistral API: " ++ m }] := by
  cases net with
  | success content => simp [failure_msg] at hf
  | requestError msg =>
      simp only [failure_msg, Option.some.injEq] at hf
      subst hf
      refine ⟨?_, ?_⟩ <;> simp [query_mistral_api, hk, chatTurn]
  | httpError msg =>
      simp only [failure_msg, Option.some.injEq] at hf
      subst hf
      refine ⟨?_, ?_⟩ <;> simp [query_mistral_api, hk, chatTurn]
  | malformed msg =>
      simp only [failure_msg, Option.some.injEq] at hf
      subst hf
      refine ⟨?_, ?_⟩ <;> simp [query_mistral_api, hk, chatTurn]

/-- C4 witness: the theorem applied to a concrete HTTP failure with a
present credential. -/
theorem chat_failure_replaced_by_literal_witness :
    (query_mistral_api (some "key-123") "What is the dosage?" none
        (.httpError "500 Server Error")).response =
      "Error querying Mistral API: " ++ "500 Server Error" :=
  (chat_failure_replaced_by_literal (some "key-123") none "What is the dosage?"
    "500 Server Error" (.httpError "500 Server Error") [] (by decide) rfl).1

/-- C2 counterexample: a successful OCR invocation whose raw output is the
single whitespace character `"\n"` (a typical blank-page OCR result)
yields the empty extraction result, and the Extract Text page then offers
neither the transition to the chat page nor the persist action — even with
a working database connection. -/
theorem ocr_empty_offers_nothing_counterexample :
    extract_text_from_image (some "\n") = some "" ∧
    (extract_page_actions true (extract_text_from_image (some "\n"))).offers_chat_transition =
      false ∧
    (extract_page_actions true (extract_text_from_image (some "\n"))).offers_submit_to_db =
      false := by
  decide

/-- C2 (amended): only when the raw OCR output is exactly the empty string
does the extraction produce the truthy sentinel `"No text detected"`, and
then the page does offer the chat transition and (with a connection)
permits persisting — the persisted value being the sentinel, not an empty
string, although `save_to_database` does accept any string, the empty one
included.  If instead the raw OCR output is non-empty whitespace (so it
strips to the empty string), the extraction result is the empty string and
the page offers no follow-on action at all. -/
theorem ocr_empty_text_actions (db_connected : Bool) (raw : String)
    (store : List Prescription) (d : Nat)
    (hraw : raw ≠ "") (hws : str_strip raw = "") :
    extract_text_from_image (some "") = some "No text detected" ∧
    (extract_page_actions db_connected (extract_text_from_image (some ""))).offers_chat_transition =
      true ∧
    (extract_page_actions db_connected (extract_text_from_image (some ""))).offers_submit_to_db =
      db_connected ∧
    save_to_database "" d store =
      store ++ [{ extracted_text := "", upload_date := d }] ∧
    extract_text_from_image (some raw) = some "" ∧
    extract_page_actions db_connected (extract_text_from_image (some raw)) =
      { shows_extracted_text := false, offers_submit_to_db := false,
        offers_view_stored := false, offers_chat_transition := false } := by
  refine ⟨rfl, ?_, ?_, rfl, ?_, ?_⟩
  · cases db_connected <;> rfl
  · cases db_connected <;> rfl
  · simp [extract_text_from_image, hraw, hws]
  · simp [extract_text_from_image, extract_page_actions, hraw, hws]

/-- C2 witness: the amended theorem applied at raw output `"\n"` with a
connected database. -/
theorem ocr_empty_text_actions_witness :
    extract_text_from_image (some "") = some "No text detected" ∧
    (extract_page_actions true (extract_text_from_image (some ""))).offers_chat_transition =
      true :=
  ⟨(ocr_empty_text_actions true "\n" [] 0 (by decide) (by decide)).1,
   (ocr_empty_text_actions true "\n" [] 0 (by decide) (by decide)).2.1⟩

/-- C5: with at least two fetched records, selecting "All Prescriptions"
resolves `prescription_data` to the ordinal-labelled concatenation of all
fetched records; the fetched order is `upload_date`-descending, so the
newest record R1 appears, with ordinal label 1 and its full text, before
the next record R2 with ordinal label 2 and its full text. -/
theorem all_prescriptions_concatenation (fetch_ok : Bool)
    (store : List Prescription) (cur : Option String)
    (r1 r2 : Prescription) (rest : List Prescription)
    (hf : fetch_stored_prescriptions fetch_ok store = r1 :: r2 :: rest) :
    chat_with_data_page fetch_ok (some store) cur "All Prescriptions" =
      .chatPanel (all_prescriptions_data (r1 :: r2 :: rest)) ∧
    r2.upload_date ≤ r1.upload_date ∧
    ∃ tail, all_prescriptions_data (r1 :: r2 :: rest) =
      "Prescription 1:\n" ++ r1.extracted_text ++ "\n\n" ++
        ("Prescription 2:\n" ++ r2.extracted_text) ++ tail := by
  refine ⟨?_, ?_, ?_⟩
  · simp [chat_with_data_page, hf]
  · have hp := pairwise_fetch fetch_ok store
    rw [hf] at hp
    exact (List.pairwise_cons.mp hp).1 r2 (by simp)
  · cases rest with
    | nil =>
        refine ⟨"", ?_⟩
        simp only [all_prescriptions_data, labeled_texts, joinSep]
        rw [show (toString (0 + 1) : String) = "1" from rfl,
          show (toString (1 + 1) : String) = "2" from rfl,
          show "Prescription " ++ "1" ++ ":\n" = "Prescription 1:\n" from by decide,
          show "Prescription " ++ "2" ++ ":\n" = "Prescription 2:\n" from by decide]
        simp [String.append_assoc]
    | cons r3 rest2 =>
        refine ⟨"\n\n" ++ joinSep "\n\n" (labeled_texts 2 (r3 :: rest2)), ?_⟩
        simp only [all_prescriptions_data, labeled_texts, joinSep]
        rw [show (toString (0 + 1) : String) = "1" from rfl,
          show (toString (1 + 1) : String) = "2" from rfl,
          show "Prescription " ++ "1" ++ ":\n" = "Prescription 1:\n" from by decide,
          show "Prescription " ++ "2" ++ ":\n" = "Prescription 2:\n" from by decide]
        simp [String.append_assoc]

/-- C5 witness: the theorem at a concrete two-record store, stored oldest
first and fetched newest first. -/
theorem all_prescriptions_concatenation_witness :
    chat_with_data_page true (some [rx_oldest, rx_newest]) none "All Prescriptions" =
      .chatPanel (all_prescriptions_data [rx_newest, rx_oldest]) ∧
    rx_oldest.upload_date ≤ rx_newest.upload_date :=
  ⟨(all_prescriptions_concatenation true [rx_oldest, rx_newest] none
      rx_newest rx_oldest [] (by decide)).1,
   (all_prescriptions_concatenation true [rx_oldest, rx_newest] none
      rx_newest rx_oldest [] (by decide)).2.1⟩

/-- C6: entering the chat page with a reachable store holding at least one
fetched record renders the selector with options in exactly this order:
"Current Extracted Prescription" first, present if and only if the active
prescription text is set (the reachable states of the app only ever set it
to a truthy extraction result), then "All Prescriptions", then one
ordinal-and-date label per fetched record, the fetched records being in
`upload_date`-descending order. -/
theorem selector_options_order (fetch_ok : Bool) (store : List Prescription)
    (cur : Option String) (r : Prescription) (rs : List Prescription)
    (hinv : cur = none ∨ ∃ t, t ≠ "" ∧ cur = some t)
    (hne : fetch_stored_prescriptions fetch_ok store = r :: rs) :
    chat_with_data_selector fetch_ok (some store) cur =
      some ((if cur.isSome then ["Current Extracted Prescription"] else []) ++
        "All Prescriptions" :: date_labels 0 (fetch_stored_prescriptions fetch_ok store)) ∧
    List.Pairwise (fun a b => b.upload_date ≤ a.upload_date)
      (fetch_stored_prescriptions fetch_ok store) := by
  refine ⟨?_, pairwise_fetch fetch_ok store⟩
  rw [chat_with_data_selector, truthy_eq_isSome_of_inv hinv]
  simp only [hne]
  cases cur with
  | none => simp [prescription_options]
  | some t => simp [prescription_options]

/-- C6 witness: the theorem at a one-record store with a set active
prescription text. -/
theorem selector_options_order_witness :
    chat_with_data_selector true (some [rx_newest])
        (some "Amoxicillin 500mg twice daily") =
      some ((if (some "Amoxicillin 500mg twice daily").isSome then
          ["Current Extracted Prescription"] else []) ++
        "All Prescriptions" :: date_labels 0 (fetch_stored_prescriptions true [rx_newest])) :=
  (selector_options_order true [rx_newest] (some "Amoxicillin 500mg twice daily")
    rx_newest []
    (Or.inr ⟨"Amoxicillin 500mg twice daily", by decide, rfl⟩) (by decide)).1

/-- C7: entering the chat page with no store connection and no (truthy)
active prescription text renders the no-data guidance and returns early —
the result is never a chat panel; likewise a connected but empty (or
unreadable) store with no active text renders the no-records guidance. -/
theorem no_data_guidance_early_exit (fetch_ok : Bool) (store : List Prescription)
    (cur : Option String) (selected : String)
    (hcur : truthy cur = false) :
    chat_with_data_page fetch_ok none cur selected = .noDataGuidance no_data_msg ∧
    (∀ d, chat_with_data_page fetch_ok none cur selected ≠ .chatPanel d) ∧
    (fetch_stored_prescriptions fetch_ok store = [] →
      chat_with_data_page fetch_ok (some store) cur selected =
        .noDataGuidance no_db_records_msg) := by
  refine ⟨?_, ?_, ?_⟩
  · simp [chat_with_data_page, hcur]
  · intro d
    simp [chat_with_data_page, hcur]
  · intro hemp
    simp [chat_with_data_page, hemp, hcur]

/-- C7 witness: the theorem with no connection, no active text, and an
empty store. -/
theorem no_data_guidance_early_exit_witness :
    chat_with_data_page true none none "All Prescriptions" =
      .noDataGuidance no_data_msg ∧
    chat_with_data_page true (some []) none "All Prescriptions" =
      .noDataGuidance no_db_records_msg :=
  ⟨(no_data_guidance_early_exit true [] none "All Prescriptions" rfl).1,
   (no_data_guidance_early_exit true [] none "All Prescriptions" rfl).2.2 rfl⟩

/-- C8: the active prescription text (`current_prescription`) is written
by exactly one event, the post-extraction transition to the chat page,
which sets it to the extracted text; every other event — page navigation,
a persist attempt whether it succeeds or fails, viewing stored records,
a chat turn, clearing the chat — leaves it unchanged. -/
theorem current_prescription_only_set_by_extraction :
    ∀ s : SessionState,
      (∀ p, (apply_event s (.setPage p)).current_prescription =
        s.current_prescription) ∧
      (∀ ok, (apply_event s (.submitToDatabase ok)).current_prescription =
        s.current_prescription) ∧
      ((apply_event s .viewStoredPrescriptions).current_prescription =
        s.current_prescription) ∧
      (∀ apiKey prescription_data q net,
        (apply_event s (.userChatTurn apiKey prescription_data q net)).current_prescription =
          s.current_prescription) ∧
      ((apply_event s .clearChatHistory).current_prescription =
        s.current_prescription) ∧
      (∀ t, apply_event s (.chatWithThisPrescription t) =
        { s with current_prescription := some t, page := .ChatWithData }) ∧
      ∀ e, (apply_event s e).current_prescription = s.current_prescription ∨
        ∃ t, e = .chatWithThisPrescription t ∧
          (apply_event s e).current_prescription = some t := by
  intro s
  refine ⟨fun _ => rfl, fun _ => rfl, rfl, fun _ _ _ _ => rfl, rfl, fun _ => rfl, ?_⟩
  intro e
  cases e with
  | chatWithThisPrescription t => exact Or.inr ⟨t, rfl, rfl⟩
  | setPage p => exact Or.inl rfl
  | submitToDatabase ok => exact Or.inl rfl
  | viewStoredPrescriptions => exact Or.inl rfl
  | userChatTurn apiKey prescription_data q net => exact Or.inl rfl
  | clearChatHistory => exact Or.inl rfl

/-- C9: clearing the chat history is idempotent — it is the constant
empty-history map, so clearing an already-empty history leaves it empty
and clearing twice equals clearing once — and it is never automatic: the
only event whose application can turn a non-empty history into an empty
one is the explicit clear-chat event. -/
theorem clear_chat_idempotent :
    (∀ h : List ChatMessage, clear_chat (clear_chat h) = clear_chat h) ∧
    clear_chat ([] : List ChatMessage) = [] ∧
    ∀ (s : SessionState) (e : Event),
      (apply_event s e).chat_history = [] →
        s.chat_history = [] ∨ e = .clearChatHistory := by
  refine ⟨fun _ => rfl, rfl, ?_⟩
  intro s e he
  cases e with
  | clearChatHistory => exact Or.inr rfl
  | setPage p => exact Or.inl he
  | chatWithThisPrescription t => exact Or.inl he
  | submitToDatabase ok => exact Or.inl he
  | viewStoredPrescriptions => exact Or.inl he
  | userChatTurn apiKey prescription_data q net =>
      exact absurd he (by simp [apply_event, chatTurn])

/-- C9 witness: the theorem applied to the explicit clear event on a
state with a non-empty history. -/
theorem clear_chat_idempotent_witness :
    demo_state.chat_history = [] ∨ Event.clearChatHistory = Event.clearChatHistory :=
  clear_chat_idempotent.2.2 demo_state .clearChatHistory rfl

/-- C10: on the chat page an active prescription text equal to the empty
string behaves exactly like an absent one, because the check is string
truthiness: the "Current Extracted Prescription" option is not among the
selector options, the rendered selector is the same as with no active
text, and with an unreachable (or empty) store the page falls into the
guidance branch instead of using the empty string as `prescription_data`. -/
theorem empty_current_prescription_like_absent :
    ∀ (ps store : List Prescription) (fetch_ok : Bool) (selected : String),
      truthy (some "") = false ∧
      "Current Extracted Prescription" ∉
        prescription_options (truthy (some "")) ps ∧
      chat_with_data_selector fetch_ok (some store) (some "") =
        chat_with_data_selector fetch_ok (some store) none ∧
      chat_with_data_page fetch_ok none (some "") selected =
        .noDataGuidance no_data_msg ∧
      chat_with_data_page fetch_ok (some []) (some "") selected =
        .noDataGuidance no_db_records_msg := by
  intro ps store fetch_ok selected
  refine ⟨rfl, ?_, ?_, ?_, ?_⟩
  · exact current_not_mem_options ps
  · rfl
  · rfl
  · cases fetch_ok <;> rfl

end MedApp
